import Mathlib

/-!
Shallow embedding of the galago-tools gRPC client (src/client/src/main.rs):
the reply-decoding logic of `ToolClient::run_script`, the command-envelope
construction, the connection-error context of `ToolClient::new`, the `status`
subcommand's printing, and the `repl` subcommand's input loop.

Ambient library behaviour (the tonic transport, Rust std's `f64::to_string`,
the derived `Debug` formatting of a metadata kind, the `run_script` round trip
seen from the repl loop) is passed in as explicit function parameters.
-/

/-- Modelled from the spec: the dynamically-typed metadata value of the generic
reply envelope (spec section 3: string / number / boolean / null / nested
structure), i.e. the well-known protobuf `Value` kind produced by the schema
layer, whose sources are not under src/. The number payload is a type parameter
`α` standing for the 64-bit float (floating point is ambient); `nullValue`
carries the integer tag of the schema's null enum; nested structures and lists
carry their payloads, which the client never inspects (it only debug-formats
them). -/
inductive Kind (α : Type) where
  | nullValue (tag : Int)
  | numberValue (n : α)
  | stringValue (s : String)
  | boolValue (b : Bool)
  | structValue (fields : List (String × Option (Kind α)))
  | listValue (values : List (Option (Kind α)))

/-- A protobuf `Value`: an optional kind (the kind field may be unset). -/
abbrev PValue (α : Type) := Option (Kind α)

/-- A protobuf `Struct`'s string-keyed field mapping, modelled as an
association list looked up with `List.lookup`. -/
abbrev StructFields (α : Type) := List (String × PValue α)

/-- Modelled from the spec: the generic reply envelope (spec section 3):
response: integer status code (1 == success), optional error message, optional
metadata mapping. The proto schema is not under src/; field names follow the
generated accessors used by `run_script`; the i32 code is modelled as `Int`. -/
structure ExecuteReply (α : Type) where
  response : Int
  error_message : Option String
  meta_data : Option (StructFields α)

/-- Modelled from the spec: the status reply value (spec section 3): integer
state code, integer uptime seconds, optional error message (proto schema not
under src/; integer fields modelled as `Int`). -/
structure StatusReply where
  status : Int
  uptime : Int
  error_message : Option String

/-- Modelled from the spec: the "run script" sub-command payload carrying a
string and a boolean flag (spec section 3; proto schema not under src/). -/
structure RunScript where
  script_content : String
  blocking : Bool
deriving DecidableEq

/-- Modelled from the spec: the toolbox sub-command tagged union; only the
variant this client builds is modelled (spec section 3). -/
inductive ToolboxCommandOneof where
  | runScript (v : RunScript)
deriving DecidableEq

/-- Modelled from the spec: the toolbox command message with its optional
oneof field (spec section 3). -/
structure ToolboxCommand where
  command : Option ToolboxCommandOneof
deriving DecidableEq

/-- Modelled from the spec: the generic command envelope's tool tagged union;
only the toolbox variant built by this client is modelled (spec section 3). -/
inductive ToolCommandOneof where
  | toolbox (v : ToolboxCommand)
deriving DecidableEq

/-- Modelled from the spec: the generic command envelope, a tagged union with
exactly one populated variant (spec section 3). -/
structure Command where
  tool_command : Option ToolCommandOneof
deriving DecidableEq

/-- The command-envelope construction performed by `ToolClient::run_script`
(src/client/src/main.rs lines 26-38): wraps (script, blocking) into the
`RunScript` payload, that into the toolbox command union, and that into the
generic `Command` envelope. -/
def build_base_command (script : String) (blocking : Bool) : Command :=
  { tool_command := some (ToolCommandOneof.toolbox
      { command := some (ToolboxCommandOneof.runScript
          { script_content := script, blocking := blocking }) }) }

/-- Rust `Debug` escaping of one character inside a quoted string, as produced
by a format specifier of debug kind: quote, backslash, newline, tab and
carriage return are escaped; every other character is kept as is (other
control characters, which Rust renders as unicode escapes, occur in no
statement below). -/
def rustCharEscape (c : Char) : List Char :=
  if c = '"' then ['\\', '"']
  else if c = '\\' then ['\\', '\\']
  else if c = '\n' then ['\\', 'n']
  else if c = '\t' then ['\\', 't']
  else if c = '\r' then ['\\', 'r']
  else [c]

/-- Rust `Debug` body of a string: each character escaped in order. -/
def rustStringEscape (s : String) : String :=
  ⟨s.data.flatMap rustCharEscape⟩

/-- Rust debug formatting of an `Option<String>`: `None`, or `Some("...")`
with the string escaped. -/
def option_string_debug : Option String → String
  | none => ("None")
  | some s => ("Some(\"") ++ rustStringEscape s ++ ("\")")

/-- The failure diagnostic built by `run_script` when the reply code is not 1
(src/client/src/main.rs lines 43-45): the bail format string with the code
displayed in decimal and the optional error message debug-formatted. -/
def script_failure_message (code : Int) (msg : Option String) : String :=
  ("Script execution failed. Code: ") ++ toString code ++ (", Error: ") ++
    option_string_debug msg

/-- The reply handling of `ToolClient::run_script` (src/client/src/main.rs
lines 42-64), from the decoded reply envelope on: a response code other than 1
fails with the diagnostic; on success the metadata mapping, when present, is
searched for the key "response", and a present kind is dispatched exactly as
in the source. `numToString` stands for Rust std `f64::to_string` (decimal
text representation, e.g. 100.0 rendered "100") and `debugFmt` for the derived
debug formatting of a kind, both ambient library behaviour. -/
def run_script_decode {α : Type} (numToString : α → String)
    (debugFmt : Kind α → String) (reply : ExecuteReply α) :
    Except String String :=
  if reply.response ≠ 1 then
    .error (script_failure_message reply.response reply.error_message)
  else
    match reply.meta_data with
    | some metadata =>
      match metadata.lookup ("response") with
      | some response_field =>
        match response_field with
        | some kind =>
          match kind with
          | .stringValue s => .ok s
          | .numberValue n => .ok (numToString n)
          | .boolValue b => .ok (if b then ("true") else ("false"))
          | .nullValue _ => .ok ("null")
          | other => .ok (debugFmt other)
        | none => .ok ("Script executed (no output)")
      | none => .ok ("Script executed (no output)")
    | none => .ok ("Script executed (no output)")

/-- `ToolClient::new` (src/client/src/main.rs lines 11-17): attempt to connect
and on failure wrap the transport error with the context
"Failed to connect to {address}". The transport `connect` is ambient
(network); an anyhow error is modelled as its context chain, outermost
first. -/
def tool_client_new {χ : Type} (connect : String → Except String χ)
    (address : String) : Except (List String) χ :=
  match connect address with
  | .error cause => .error [("Failed to connect to ") ++ address, cause]
  | .ok channel => .ok channel

/-- The lines printed by the `status` subcommand arm (src/client/src/main.rs
lines 110-123) around and after a received status reply: the fixed banner
lines, the state and uptime lines, and the error line exactly when the error
message is present and non-empty. -/
def status_arm_output (st : StatusReply) : List String :=
  [("Checking server status..."),
   ("\n✓ Server Status:"),
   ("  State: ") ++ toString st.status ++ (" (3=READY)"),
   ("  Uptime: ") ++ toString st.uptime ++ (" seconds")] ++
  (match st.error_message with
   | some err => if err = ("") then [] else [("  Error: ") ++ err]
   | none => [])

/-- One observable step of the repl loop: the printed prompt, an issued
`run_script` RPC (script text and blocking flag), or a printed line. -/
inductive ReplEvent where
  | prompt
  | call (script : String) (blocking : Bool)
  | print (s : String)
deriving DecidableEq

/-- Whether an event is an RPC call. -/
def ReplEvent.isCall : ReplEvent → Bool
  | .call _ _ => true
  | _ => false

/-- A trace containing no RPC call at all. -/
def noRpc (events : List ReplEvent) : Bool :=
  events.all (fun e => !e.isCall)

/-- Rust `str::trim`, modelled on the character list: leading and trailing
whitespace removed (the repl applies it to each raw input line, which includes
its trailing newline when one was read). -/
def rustTrim (s : String) : String :=
  ⟨((s.data.dropWhile Char.isWhitespace).reverse.dropWhile
      Char.isWhitespace).reverse⟩

/-- Result of one repl iteration: the loop broke, or it continues with the
remaining stdin. -/
inductive ReplStep where
  | terminated (events : List ReplEvent)
  | next (events : List ReplEvent) (rest : List String)
deriving DecidableEq

/-- One iteration of the repl loop (src/client/src/main.rs lines 140-161).
Stdin is the list of not yet consumed input lines; at end of input,
`read_line` returns Ok(0) leaving the buffer empty, so the line read is ""
and the remaining input stays empty. `rpc` is the ambient `run_script` round
trip from (script, blocking) to output or error. The iteration prints the
prompt, reads and trims a line, breaks on "exit"/"quit" after printing
"Goodbye!", skips an empty line, and otherwise calls `rpc` on the trimmed
line with blocking true, printing a non-empty output or the error. -/
def replStep (rpc : String → Bool → Except String String)
    (stdin : List String) : ReplStep :=
  let (input, rest) := match stdin with
    | [] => (("" : String), ([] : List String))
    | l :: ls => (l, ls)
  let trimmed := rustTrim input
  if trimmed = ("exit") ∨ trimmed = ("quit") then
    .terminated [.prompt, .print ("Goodbye!")]
  else if trimmed = ("") then
    .next [.prompt] rest
  else
    match rpc trimmed true with
    | .ok result =>
      .next ([ReplEvent.prompt, .call trimmed true] ++
        (if result = ("") then [] else [.print result])) rest
    | .error e =>
      .next [.prompt, .call trimmed true, .print (("Error: ") ++ e)] rest

/-- The repl loop run for at most `fuel` iterations: `some events` when the
loop broke within the budget, `none` when it was still running after `fuel`
iterations. -/
def replRun (rpc : String → Bool → Except String String) :
    Nat → List String → Option (List ReplEvent)
  | 0, _ => none
  | fuel + 1, stdin =>
    match replStep rpc stdin with
    | .terminated events => some events
    | .next events rest => (replRun rpc fuel rest).map (fun more => events ++ more)

/-- The events claim C4 (amended) expects for a dispatched repl line, written
from the spec's words: a `run_script` call on the trimmed line with blocking
true, followed by the printed output when it is non-empty, or the printed
error. -/
def expectedLineEvents (rpc : String → Bool → Except String String)
    (line : String) : List ReplEvent :=
  match rpc (rustTrim line) true with
  | .ok result =>
    [ReplEvent.prompt, ReplEvent.call (rustTrim line) true] ++
      (if result = ("") then [] else [ReplEvent.print result])
  | .error e =>
    [ReplEvent.prompt, ReplEvent.call (rustTrim line) true,
     ReplEvent.print (("Error: ") ++ e)]

/-- Helper: escaping a list of characters that need no escape is the
identity. -/
theorem flatMap_rustCharEscape_eq_self (l : List Char)
    (h : ∀ c ∈ l, rustCharEscape c = [c]) :
    l.flatMap rustCharEscape = l := by
  induction l with
  | nil => rfl
  | cons c cs ih =>
    rw [List.flatMap_cons, h c (List.mem_cons_self c cs),
      ih (fun x hx => h x (List.mem_cons_of_mem c hx))]
    rfl

/-- Helper: the debug body of a string with no escapable character is the
string itself. -/
theorem rustStringEscape_clean (s : String)
    (h : ∀ c ∈ s.data, rustCharEscape c = [c]) :
    rustStringEscape s = s := by
  unfold rustStringEscape
  rw [flatMap_rustCharEscape_eq_self s.data h]

/-- Claim C1: for a structurally successful reply (code 1) whose metadata
contains the key "response" with a kind present, `run_script` converts the
value to a display string by exact precedence: a string is returned unchanged;
a number as its decimal text representation (`numToString`, standing for Rust
std `f64::to_string`, which renders 100.0 as "100"); a boolean as the literal
"true"/"false"; null as the literal "null"; any other kind as its
debug-formatted textual dump. -/
theorem C1_run_script_display {α : Type} (numToString : α → String)
    (debugFmt : Kind α → String) (reply : ExecuteReply α)
    (metadata : StructFields α) (kind : Kind α)
    (hcode : reply.response = 1)
    (hmeta : reply.meta_data = some metadata)
    (hkey : metadata.lookup ("response") = some (some kind)) :
    run_script_decode numToString debugFmt reply =
      .ok (match kind with
        | .stringValue s => s
        | .numberValue n => numToString n
        | .boolValue b => if b then ("true") else ("false")
        | .nullValue _ => ("null")
        | other => debugFmt other) := by
  cases kind <;> simp [run_script_decode, hcode, hmeta, hkey]

/-- Witness for C1 at a concrete string-valued reply. -/
theorem C1_witness :
    run_script_decode (fun _ : Unit => ("42")) (fun _ => ("dump"))
      { response := 1, error_message := none,
        meta_data := some [(("response"), some (Kind.stringValue ("hi")))] } =
      .ok ("hi") :=
  C1_run_script_display (fun _ : Unit => ("42")) (fun _ => ("dump"))
    { response := 1, error_message := none,
      meta_data := some [(("response"), some (Kind.stringValue ("hi")))] }
    [(("response"), some (Kind.stringValue ("hi")))] (Kind.stringValue ("hi"))
    rfl rfl rfl

/-- Claim C3: for a reply with code 1 whose metadata is absent, or present but
without the key "response", `run_script` succeeds with exactly the fixed
placeholder string. -/
theorem C3_no_output_placeholder {α : Type} (numToString : α → String)
    (debugFmt : Kind α → String) (reply : ExecuteReply α)
    (hcode : reply.response = 1)
    (hmeta : reply.meta_data = none ∨
      ∃ metadata, reply.meta_data = some metadata ∧
        metadata.lookup ("response") = none) :
    run_script_decode numToString debugFmt reply =
      .ok ("Script executed (no output)") := by
  rcases hmeta with hnone | ⟨metadata, hsome, hkey⟩
  · simp [run_script_decode, hcode, hnone]
  · simp [run_script_decode, hcode, hsome, hkey]

/-- Witness for C3 at a concrete reply with absent metadata. -/
theorem C3_witness :
    run_script_decode (fun _ : Unit => ("42")) (fun _ => ("dump"))
      { response := 1, error_message := none, meta_data := none } =
      .ok ("Script executed (no output)") :=
  C3_no_output_placeholder (fun _ : Unit => ("42")) (fun _ => ("dump")) _
    rfl (Or.inl rfl)

/-- Claim C9: for a reply with code 1 whose metadata holds the key "response"
with an unset kind, `run_script` returns the placeholder, exactly as for an
absent key. -/
theorem C9_kindless_value_placeholder {α : Type} (numToString : α → String)
    (debugFmt : Kind α → String) (reply : ExecuteReply α)
    (metadata : StructFields α)
    (hcode : reply.response = 1)
    (hmeta : reply.meta_data = some metadata)
    (hkey : metadata.lookup ("response") = some none) :
    run_script_decode numToString debugFmt reply =
      .ok ("Script executed (no output)") := by
  simp [run_script_decode, hcode, hmeta, hkey]

/-- Witness for C9 at a concrete reply with a kindless "response" value. -/
theorem C9_witness :
    run_script_decode (fun _ : Unit => ("42")) (fun _ => ("dump"))
      { response := 1, error_message := none,
        meta_data := some [(("response"), (none : PValue Unit))] } =
      .ok ("Script executed (no output)") :=
  C9_kindless_value_placeholder (fun _ : Unit => ("42")) (fun _ => ("dump"))
    { response := 1, error_message := none,
      meta_data := some [(("response"), (none : PValue Unit))] }
    [(("response"), (none : PValue Unit))] rfl rfl rfl

/-- Claim C6: command-envelope construction is deterministic and determined by
its inputs alone: two builds from equal (script, blocking) pairs are
structurally identical, and the built envelope is exactly the toolbox
run-script envelope of those inputs. -/
theorem C6_build_deterministic (script₁ : String) (blocking₁ : Bool)
    (script₂ : String) (blocking₂ : Bool)
    (hs : script₁ = script₂) (hb : blocking₁ = blocking₂) :
    build_base_command script₁ blocking₁ = build_base_command script₂ blocking₂ ∧
    build_base_command script₁ blocking₁ =
      { tool_command := some (ToolCommandOneof.toolbox
          { command := some (ToolboxCommandOneof.runScript
              { script_content := script₁, blocking := blocking₁ }) }) } := by
  subst hs
  subst hb
  exact ⟨rfl, rfl⟩

/-- Witness for C6 at the spec's example inputs. -/
theorem C6_witness :
    build_base_command ("print(1)") true = build_base_command ("print(1)") true ∧
    build_base_command ("print(1)") true =
      { tool_command := some (ToolCommandOneof.toolbox
          { command := some (ToolboxCommandOneof.runScript
              { script_content := ("print(1)"), blocking := true }) }) } :=
  C6_build_deterministic ("print(1)") true ("print(1)") true rfl rfl

/-- Claim C8: when the channel cannot be established, `ToolClient::new` fails
and the outermost context of its error is "Failed to connect to {address}",
which carries the attempted address verbatim. -/
theorem C8_connect_error_context {χ : Type} (connect : String → Except String χ)
    (address : String) (cause : String)
    (hfail : connect address = .error cause) :
    tool_client_new connect address =
      .error [("Failed to connect to ") ++ address, cause] ∧
    (address.data <:+: ((("Failed to connect to ") ++ address).data)) := by
  constructor
  · simp [tool_client_new, hfail]
  · refine ⟨(("Failed to connect to ")).data, [], ?_⟩
    simp

/-- Witness for C8 at a concrete refused address. -/
theorem C8_witness :
    tool_client_new (fun _ => (.error ("refused") : Except String Unit))
      ("http://203.0.113.1:50051") =
      .error [("Failed to connect to ") ++ ("http://203.0.113.1:50051"),
        ("refused")] ∧
    (("http://203.0.113.1:50051").data <:+:
      ((("Failed to connect to ") ++ ("http://203.0.113.1:50051")).data)) :=
  C8_connect_error_context (fun _ => .error ("refused"))
    ("http://203.0.113.1:50051") ("refused") rfl

/-- Claim C10: the status arm prints the error line only for a present and
non-empty error message: an empty-string message prints exactly as an absent
one, and a non-empty message adds exactly the error line at the end. -/
theorem C10_status_error_line (st up : Int) (err : String)
    (hne : err ≠ ("")) :
    status_arm_output { status := st, uptime := up, error_message := some ("") } =
      status_arm_output { status := st, uptime := up, error_message := none } ∧
    status_arm_output { status := st, uptime := up, error_message := some err } =
      status_arm_output { status := st, uptime := up, error_message := none } ++
        [("  Error: ") ++ err] := by
  constructor
  · rfl
  · simp [status_arm_output, hne]

/-- Witness for C10 at a ready status with a concrete message. -/
theorem C10_witness :
    status_arm_output { status := 3, uptime := 120, error_message := some ("") } =
      status_arm_output { status := 3, uptime := 120, error_message := none } ∧
    status_arm_output { status := 3, uptime := 120, error_message := some ("boom") } =
      status_arm_output { status := 3, uptime := 120, error_message := none } ++
        [("  Error: ") ++ ("boom")] :=
  C10_status_error_line 3 120 ("boom") (by decide)

/-- Claim C2 counterexample: a reply with code 0 and error message a"b (a
quote inside): the diagnostic renders the message in debug form with the quote
escaped, so the message text does not occur verbatim in the diagnostic even
though `run_script` fails as claimed. -/
theorem C2_counterexample :
    run_script_decode (fun _ : Unit => ("")) (fun _ => (""))
      { response := 0, error_message := some ("a\"b"), meta_data := none } =
      .error ("Script execution failed. Code: 0, Error: Some(\"a\\\"b\")") ∧
    ¬ ((("a\"b").data) <:+:
        (("Script execution failed. Code: 0, Error: Some(\"a\\\"b\")").data)) := by
  constructor
  · rfl
  · decide

/-- Claim C2 (amended): for every reply whose code is not 1, `run_script`
fails with the diagnostic "Script execution failed. Code: c, Error: m" where c
is the decimal code and m the debug rendering of the optional error message;
the decimal code always occurs verbatim in the diagnostic, "None" occurs when
the message is absent, and the message text occurs verbatim whenever debug
formatting escapes none of its characters. -/
theorem C2_failure_diagnostic {α : Type} (numToString : α → String)
    (debugFmt : Kind α → String) (reply : ExecuteReply α)
    (hcode : reply.response ≠ 1) :
    run_script_decode numToString debugFmt reply =
      .error (script_failure_message reply.response reply.error_message) ∧
    ((toString reply.response).data <:+:
      (script_failure_message reply.response reply.error_message).data) ∧
    (reply.error_message = none →
      (("None").data <:+:
        (script_failure_message reply.response reply.error_message).data)) ∧
    (∀ s, reply.error_message = some s →
      (∀ c ∈ s.data, rustCharEscape c = [c]) →
      (s.data <:+:
        (script_failure_message reply.response reply.error_message).data)) := by
  refine ⟨by simp [run_script_decode, hcode], ?_, ?_, ?_⟩
  · refine ⟨(("Script execution failed. Code: ")).data,
      ((", Error: ")).data ++ (option_string_debug reply.error_message).data, ?_⟩
    simp [script_failure_message]
  · intro hnone
    refine ⟨(("Script execution failed. Code: ") ++ toString reply.response ++
      (", Error: ")).data, [], ?_⟩
    simp [script_failure_message, hnone, option_string_debug]
  · intro s hsome hclean
    refine ⟨(("Script execution failed. Code: ") ++ toString reply.response ++
      (", Error: ") ++ ("Some(\"")).data, (("\")")).data, ?_⟩
    simp [script_failure_message, hsome, option_string_debug,
      rustStringEscape_clean s hclean]

/-- Witness for C2 (amended) at a concrete failing reply. -/
theorem C2_witness :
    run_script_decode (fun _ : Unit => ("")) (fun _ => (""))
      { response := 2, error_message := some ("boom"), meta_data := none } =
      .error ("Script execution failed. Code: 2, Error: Some(\"boom\")") ∧
    (("2").data <:+:
      (("Script execution failed. Code: 2, Error: Some(\"boom\")").data)) ∧
    (("boom").data <:+:
      (("Script execution failed. Code: 2, Error: Some(\"boom\")").data)) := by
  have h := C2_failure_diagnostic (fun _ : Unit => ("")) (fun _ => (""))
    { response := 2, error_message := some ("boom"), meta_data := none }
    (by decide)
  exact ⟨h.1, h.2.1, h.2.2.2 ("boom") rfl (by decide)⟩

/-- Claim C4 counterexample: the input line "" is neither "exit" nor "quit",
yet the repl issues no `run_script` call for it: the full trace of running on
stdin with lines "" then "exit" contains no call event at all. -/
theorem C4_counterexample :
    replRun (fun _ _ => Except.ok ("ok")) 2 [(""), ("exit")] =
      some [ReplEvent.prompt, ReplEvent.prompt, ReplEvent.print ("Goodbye!")] ∧
    noRpc [ReplEvent.prompt, ReplEvent.prompt, ReplEvent.print ("Goodbye!")] =
      true := by
  constructor
  · rfl
  · rfl

/-- Claim C4 (amended): for every input line whose trimmed text is non-empty
and is not "exit" or "quit", the repl calls `run_script` on the trimmed line
with blocking true and prints the returned output when it is non-empty (an
empty output prints nothing) or prints the error, and in both cases the loop
continues with the remaining input lines; a line trimming to empty is skipped
without a call. -/
theorem C4_line_dispatch (rpc : String → Bool → Except String String)
    (line : String) (rest : List String) (fuel : Nat)
    (hexit : rustTrim line ≠ ("exit")) (hquit : rustTrim line ≠ ("quit"))
    (hempty : rustTrim line ≠ ("")) :
    replStep rpc (line :: rest) =
      ReplStep.next (expectedLineEvents rpc line) rest ∧
    replRun rpc (fuel + 1) (line :: rest) =
      (replRun rpc fuel rest).map
        (fun more => expectedLineEvents rpc line ++ more) := by
  have hstep : replStep rpc (line :: rest) =
      ReplStep.next (expectedLineEvents rpc line) rest := by
    cases hr : rpc (rustTrim line) true with
    | ok result =>
      simp [replStep, expectedLineEvents, hexit, hquit, hempty, hr]
    | error e =>
      simp [replStep, expectedLineEvents, hexit, hquit, hempty, hr]
  refine ⟨hstep, ?_⟩
  simp [replRun, hstep]

/-- Witness for C4 (amended) at a concrete dispatched line. -/
theorem C4_witness :
    replStep (fun _ _ => Except.ok ("y")) [("print(1)")] =
      ReplStep.next
        (expectedLineEvents (fun _ _ => Except.ok ("y")) ("print(1)")) [] ∧
    replRun (fun _ _ => Except.ok ("y")) 1 [("print(1)")] =
      (replRun (fun _ _ => Except.ok ("y")) 0 []).map
        (fun more =>
          expectedLineEvents (fun _ _ => Except.ok ("y")) ("print(1)") ++
            more) :=
  C4_line_dispatch (fun _ _ => Except.ok ("y")) ("print(1)") [] 0
    (by decide) (by decide) (by decide)

/-- Claim C5: the repl loop does not terminate at end of input: once stdin is
exhausted (and no line ever trimmed to "exit" or "quit"), `read_line` keeps
returning an empty buffer which is skipped as an empty line, so the loop is
still running after any number of iterations. -/
theorem C5_repl_eof_divergence (rpc : String → Bool → Except String String)
    (stdin : List String)
    (h : ∀ l ∈ stdin, rustTrim l ≠ ("exit") ∧ rustTrim l ≠ ("quit")) :
    ∀ fuel, replRun rpc fuel stdin = none := by
  intro fuel
  induction fuel generalizing stdin with
  | zero => rfl
  | succ n ih =>
    cases stdin with
    | nil =>
      have hrec := ih [] (by simp)
      simp [replRun, replStep, rustTrim, hrec]
    | cons l ls =>
      have hl := h l (List.mem_cons_self l ls)
      have hrec := ih ls (fun x hx => h x (List.mem_cons_of_mem l hx))
      by_cases he : rustTrim l = ("")
      · simp [replRun, replStep, he, hl.1, hl.2, hrec]
      · cases hr : rpc (rustTrim l) true with
        | ok result => simp [replRun, replStep, he, hl.1, hl.2, hr, hrec]
        | error e => simp [replRun, replStep, he, hl.1, hl.2, hr, hrec]

/-- Witness for C5 at an immediately exhausted stdin. -/
theorem C5_witness :
    replRun (fun _ _ => Except.ok ("")) 5 [] = none :=
  C5_repl_eof_divergence (fun _ _ => Except.ok ("")) [] (by simp) 5

/-- Claim C7: an input line "exit" terminates the loop in that very iteration
after printing "Goodbye!": whatever the server behaviour, the remaining input,
and the remaining fuel, the trace is exactly the prompt and the farewell and
contains no RPC call, for that line or after it. -/
theorem C7_exit_no_rpc (rpc : String → Bool → Except String String)
    (rest : List String) (fuel : Nat) :
    replRun rpc (fuel + 1) ((("exit")) :: rest) =
      some [ReplEvent.prompt, ReplEvent.print ("Goodbye!")] ∧
    noRpc [ReplEvent.prompt, ReplEvent.print ("Goodbye!")] = true := by
  constructor
  · rfl
  · rfl
